import Mathlib

/-!
Shallow embedding of the ESTOP_System repository (Flask app recording
safety-device test results), covering:

* `app/utils/auth.py` — `AuthManager` (user registry and authentication);
* `app/models/database.py` — `ESTOPDatabase` (machines, safety devices,
  test records; SQL queries are embedded as list pipelines over a
  relational state, and the SQL `ORDER BY` clauses as insertion sorts);
* `app/__init__.py` — the `add_user`, `delete_user` and `history`
  request handlers (the parts past routing/templating glue).

Timestamps (`GETDATE()` / `test_date`) are modelled as natural numbers;
`DATEDIFF(day, d, now)` becomes integer subtraction.  Each database
operation takes two booleans: `connOk` models whether `pytds.connect`
succeeds inside `get_connection` (which logs and re-raises on failure,
so `connOk = false` yields `Except.error ()`), and `queryOk` /
`insertOk` models whether the cursor work inside the operation's own
`try` block succeeds (that failure is caught and converted to `[]` or
`False`).  The SQL foreign-key constraints on `test_records` are
modelled by `fkOk`: an `INSERT` against a nonexistent machine or device
id fails at the storage layer and is caught, returning `false`.
-/

namespace ESTOP

/-- Row of the `machines` table (also the shape returned by
`get_machines`, which selects all three columns). -/
structure Machine where
  machine_id : Nat
  machine_name : String
  location : String
  deriving DecidableEq, Repr

/-- Row of the `safety_devices` table. -/
structure SafetyDevice where
  device_id : Nat
  machine_id : Nat
  device_name : String
  device_type : String
  deriving DecidableEq, Repr

/-- Row of the `test_records` table. -/
structure TestRecord where
  record_id : Nat
  machine_id : Nat
  device_id : Nat
  username : String
  test_result : String
  test_date : Nat
  notes : String
  deriving DecidableEq, Repr

/-- The relational state held by SQL Server: the three tables plus the
`IDENTITY(1,1)` counter that assigns `record_id`s. -/
structure DBState where
  machines : List Machine
  safety_devices : List SafetyDevice
  test_records : List TestRecord
  nextRecordId : Nat
  deriving DecidableEq, Repr

/-- Projection returned by `get_safety_devices`
(`SELECT device_id, device_name, device_type`). -/
structure DeviceRow where
  device_id : Nat
  device_name : String
  device_type : String
  deriving DecidableEq, Repr

/-- Denormalized row returned by `get_device_tests` (the join of
`test_records` with `machines` and `safety_devices`, plus the computed
`days_since_test`). -/
structure TestView where
  record_id : Nat
  machine_name : String
  device_name : String
  username : String
  test_result : String
  test_date : Nat
  days_since_test : Int
  deriving DecidableEq, Repr

/-- `ORDER BY machine_name` comparison. -/
def machineNameLe (a b : Machine) : Prop := a.machine_name ≤ b.machine_name

/-- `ORDER BY device_name` comparison. -/
def deviceNameLe (a b : DeviceRow) : Prop := a.device_name ≤ b.device_name

/-- `ORDER BY tr.test_date DESC` comparison: later dates first. -/
def dateDesc (a b : TestView) : Prop := b.test_date ≤ a.test_date

/-- `sorted(tests, key=days_since_test, reverse=True)` comparison:
larger ages (staler tests) first. -/
def ageDesc (a b : TestView) : Prop := b.days_since_test ≤ a.days_since_test

/-- `sorted(tests, key=machine_name)` comparison. -/
def machineAsc (a b : TestView) : Prop := a.machine_name ≤ b.machine_name

/-- `sorted(tests, key=device_name)` comparison. -/
def deviceAsc (a b : TestView) : Prop := a.device_name ≤ b.device_name

instance : DecidableRel machineNameLe :=
  fun a b => inferInstanceAs (Decidable (a.machine_name ≤ b.machine_name))

instance : DecidableRel deviceNameLe :=
  fun a b => inferInstanceAs (Decidable (a.device_name ≤ b.device_name))

instance : DecidableRel dateDesc :=
  fun a b => inferInstanceAs (Decidable (b.test_date ≤ a.test_date))

instance : DecidableRel ageDesc :=
  fun a b => inferInstanceAs (Decidable (b.days_since_test ≤ a.days_since_test))

instance : DecidableRel machineAsc :=
  fun a b => inferInstanceAs (Decidable (a.machine_name ≤ b.machine_name))

instance : DecidableRel deviceAsc :=
  fun a b => inferInstanceAs (Decidable (a.device_name ≤ b.device_name))

instance : IsTotal Machine machineNameLe := ⟨fun a b => le_total a.machine_name b.machine_name⟩

instance : IsTrans Machine machineNameLe := ⟨fun _ _ _ h1 h2 => le_trans h1 h2⟩

instance : IsTotal DeviceRow deviceNameLe := ⟨fun a b => le_total a.device_name b.device_name⟩

instance : IsTrans DeviceRow deviceNameLe := ⟨fun _ _ _ h1 h2 => le_trans h1 h2⟩

instance : IsTotal TestView dateDesc := ⟨fun a b => le_total b.test_date a.test_date⟩

instance : IsTrans TestView dateDesc := ⟨fun _ _ _ h1 h2 => le_trans h2 h1⟩

instance : IsTotal TestView ageDesc := ⟨fun a b => le_total b.days_since_test a.days_since_test⟩

instance : IsTrans TestView ageDesc := ⟨fun _ _ _ h1 h2 => le_trans h2 h1⟩

instance : IsTotal TestView machineAsc := ⟨fun a b => le_total a.machine_name b.machine_name⟩

instance : IsTrans TestView machineAsc := ⟨fun _ _ _ h1 h2 => le_trans h1 h2⟩

instance : IsTotal TestView deviceAsc := ⟨fun a b => le_total a.device_name b.device_name⟩

instance : IsTrans TestView deviceAsc := ⟨fun _ _ _ h1 h2 => le_trans h1 h2⟩

/-- `ESTOPDatabase.get_machines`:
`SELECT machine_id, machine_name, location FROM machines ORDER BY machine_name`.
The connection is obtained before the `try` block, so a connection
failure propagates (`Except.error`); a failure inside the `try` block is
caught and yields `[]`. -/
def get_machines (db : DBState) (connOk queryOk : Bool) : Except Unit (List Machine) :=
  if !connOk then Except.error ()
  else if !queryOk then Except.ok []
  else Except.ok (List.insertionSort machineNameLe db.machines)

/-- Projection performed by the `SELECT` list of `get_safety_devices`. -/
def projDevice (d : SafetyDevice) : DeviceRow :=
  ⟨d.device_id, d.device_name, d.device_type⟩

/-- `ESTOPDatabase.get_safety_devices`:
`SELECT device_id, device_name, device_type FROM safety_devices
 WHERE machine_id = %s ORDER BY device_name`.
Same failure structure as `get_machines`. -/
def get_safety_devices (db : DBState) (machine_id : Nat) (connOk queryOk : Bool) :
    Except Unit (List DeviceRow) :=
  if !connOk then Except.error ()
  else if !queryOk then Except.ok []
  else Except.ok (List.insertionSort deviceNameLe
    ((db.safety_devices.filter (fun d => d.machine_id == machine_id)).map projDevice))

/-- Foreign-key check enforced by SQL Server on `INSERT INTO test_records`:
the referenced machine and device rows must exist. -/
def fkOk (db : DBState) (machine_id device_id : Nat) : Bool :=
  db.machines.any (fun m => m.machine_id == machine_id) &&
  db.safety_devices.any (fun d => d.device_id == device_id)

/-- The row inserted by `record_test`: server-assigned id
(`IDENTITY(1,1)`) and `test_date = GETDATE()` (the `now` argument). -/
def newTestRecord (now : Nat) (db : DBState) (machine_id device_id : Nat)
    (username test_result notes : String) : TestRecord :=
  ⟨db.nextRecordId, machine_id, device_id, username, test_result, now, notes⟩

/-- `ESTOPDatabase.record_test`: inserts a new `test_records` row.
The connection is obtained before the `try` block (connection failure
propagates); a failed `INSERT` — including a foreign-key violation — is
caught and returns `false`. -/
def record_test (now : Nat) (db : DBState) (machine_id device_id : Nat)
    (username test_result notes : String) (connOk insertOk : Bool) :
    Except Unit (Bool × DBState) :=
  if !connOk then Except.error ()
  else if insertOk && fkOk db machine_id device_id then
    Except.ok (true,
      { db with
        test_records := db.test_records ++
          [newTestRecord now db machine_id device_id username test_result notes],
        nextRecordId := db.nextRecordId + 1 })
  else Except.ok (false, db)

/-- The `SELECT` list of `get_device_tests`, including
`DATEDIFF(day, tr.test_date, GETDATE()) as days_since_test`. -/
def mkView (now : Nat) (tr : TestRecord) (m : Machine) (sd : SafetyDevice) : TestView :=
  ⟨tr.record_id, m.machine_name, sd.device_name, tr.username, tr.test_result,
   tr.test_date, (now : Int) - (tr.test_date : Int)⟩

/-- The `FROM test_records tr JOIN machines m ON tr.machine_id = m.machine_id
JOIN safety_devices sd ON tr.device_id = sd.device_id` clause of
`get_device_tests`. -/
def joinRows (now : Nat) (db : DBState) : List TestView :=
  db.test_records.flatMap fun tr =>
    (db.machines.filter (fun m => tr.machine_id == m.machine_id)).flatMap fun m =>
      (db.safety_devices.filter (fun sd => tr.device_id == sd.device_id)).map fun sd =>
        mkView now tr m sd

/-- `leadsWith p l` holds when the character list `p` is an initial
segment of `l` (helper for the SQL `LIKE` pattern). -/
def leadsWith : List Char → List Char → Bool
  | [], _ => true
  | _ :: _, [] => false
  | a :: as, b :: bs => a == b && leadsWith as bs

/-- `occursIn p l` holds when `p` occurs contiguously inside `l`. -/
def occursIn (p : List Char) : List Char → Bool
  | [] => leadsWith p []
  | c :: cs => leadsWith p (c :: cs) || occursIn p cs

/-- `s LIKE '%pat%'`: `pat` occurs as a substring of `s`. -/
def strContains (s pat : String) : Bool := occursIn pat.data s.data

/-- The dynamically built `WHERE` clause of `get_device_tests`: each
filter is appended only when the corresponding argument is non-empty
(Python truthiness of strings), and all appended filters conjoin. -/
def rowMatches (search machineF userF : String) (v : TestView) : Bool :=
  (search == "" || (strContains v.device_name search || strContains v.machine_name search)) &&
  (machineF == "" || v.machine_name == machineF) &&
  (userF == "" || v.username == userF)

/-- The result rows of `get_device_tests` on the success path: join,
filter, then `ORDER BY tr.test_date DESC`. -/
def queryRows (now : Nat) (db : DBState) (search machineF userF : String) : List TestView :=
  List.insertionSort dateDesc ((joinRows now db).filter (rowMatches search machineF userF))

/-- `ESTOPDatabase.get_device_tests` with its failure structure: the
connection is obtained before the `try` block (connection failure
propagates); a failure inside the `try` block is caught and yields `[]`. -/
def get_device_tests (now : Nat) (db : DBState) (search machineF userF : String)
    (connOk queryOk : Bool) : Except Unit (List TestView) :=
  if !connOk then Except.error ()
  else if !queryOk then Except.ok []
  else Except.ok (queryRows now db search machineF userF)

/-- The caller-side re-sort in the `history` handler: Python
`sorted(tests, key=..., reverse=...)` for the recognized sort keys, the
base order otherwise. -/
def sortTests (sort_by : String) (tests : List TestView) : List TestView :=
  if sort_by == "age" then List.insertionSort ageDesc tests
  else if sort_by == "machine" then List.insertionSort machineAsc tests
  else if sort_by == "device" then List.insertionSort deviceAsc tests
  else tests

/-- A value of the `users.json` registry: the fields stored per
username by `add_user` and read by `AuthManager`. -/
structure UserRec where
  first_name : String
  last_name : String
  email : String
  password : String
  role : String
  privileges : List String
  created_at : String
  deriving DecidableEq, Repr

/-- The in-memory user registry `AuthManager.users`: a Python dict from
username to user record, embedded as an association list (insertion
ordered; keys unique in any state reachable through the handlers). -/
abbrev Registry := List (String × UserRec)

/-- Python dict lookup `users[u]` / `u in users` (first matching key). -/
def lookupUser : Registry → String → Option UserRec
  | [], _ => none
  | (k, r) :: rest, u => if k == u then some r else lookupUser rest u

/-- Python `u in users`. -/
def hasUser (users : Registry) (u : String) : Bool := (lookupUser users u).isSome

/-- Python `del users[u]` (removes the first matching key). -/
def eraseUser : Registry → String → Registry
  | [], _ => []
  | (k, r) :: rest, u => if k == u then rest else (k, r) :: eraseUser rest u

/-- `AuthManager.authenticate`: true iff the username is a key of the
registry and the stored password equals the supplied one verbatim. -/
def authenticate (users : Registry) (username password : String) : Bool :=
  match lookupUser users username with
  | some r => r.password == password
  | none => false

/-- `AuthManager.get_user_privileges`: the user's privilege list, or
`[]` for an unknown username. -/
def get_user_privileges (users : Registry) (username : String) : List String :=
  match lookupUser users username with
  | some r => r.privileges
  | none => []

/-- Python `str.strip()` on ASCII input: drop surrounding whitespace. -/
def pyStrip (s : String) : String :=
  String.mk (((s.data.dropWhile Char.isWhitespace).reverse.dropWhile
    Char.isWhitespace).reverse)

/-- Python `str.capitalize()` on ASCII input: upper-case the first
character, lower-case the rest. -/
def pyCapitalize (s : String) : String :=
  match s.data with
  | [] => ""
  | c :: cs => String.mk (c.toUpper :: cs.map Char.toLower)

/-- Outcome of the `add_user` handler, mirroring its control flow:
redirect to login, access-denied flash, "Username already exists"
flash, success flash, or "User added but could not save to file". -/
inductive AddOutcome
  | redirectLogin
  | accessDenied
  | duplicate
  | added
  | addedSaveFailed
  deriving DecidableEq, Repr

/-- Result of the `add_user` handler: its outcome, the registry
afterwards, and the document written to `users.json` (`none` when the
file was not (re)written). -/
structure AddResult where
  outcome : AddOutcome
  users : Registry
  savedDoc : Option Registry
  deriving DecidableEq, Repr

/-- The `add_user` request handler (`app/__init__.py`): session check,
admin-privilege check, strip the text fields, capitalize the names,
reject a duplicate (stripped) username, otherwise append the new user —
with privileges `[role]` for role `admin` or `supervisor` and `["user"]`
otherwise — and rewrite `users.json` (`saveOk` models whether that write
succeeds; on failure the in-memory add is retained). `created_at`
stands for the formatted current time. -/
def add_user (sessionUser : Option String) (sessionPrivs : List String) (users : Registry)
    (first_name last_name email username password role created_at : String)
    (saveOk : Bool) : AddResult :=
  match sessionUser with
  | none => ⟨AddOutcome.redirectLogin, users, none⟩
  | some _ =>
    if !(sessionPrivs.contains "admin") then ⟨AddOutcome.accessDenied, users, none⟩
    else
      let fn := pyCapitalize (pyStrip first_name)
      let ln := pyCapitalize (pyStrip last_name)
      let em := pyStrip email
      let un := pyStrip username
      if hasUser users un then ⟨AddOutcome.duplicate, users, none⟩
      else
        let newUser : UserRec :=
          ⟨fn, ln, em, password, role,
           if role == "admin" || role == "supervisor" then [role] else ["user"],
           created_at⟩
        let users2 := users ++ [(un, newUser)]
        if saveOk then ⟨AddOutcome.added, users2, some users2⟩
        else ⟨AddOutcome.addedSaveFailed, users2, none⟩

/-- Outcome of the `delete_user` handler, mirroring its control flow. -/
inductive DeleteOutcome
  | notAuthenticated
  | accessDenied
  | selfDeletion
  | notFound
  | deleted
  | saveFailed
  deriving DecidableEq, Repr

/-- Result of the `delete_user` handler: the `success` flag of the JSON
response, the outcome, the registry afterwards, and the document
written to `users.json` (`none` when the file was not rewritten). -/
structure DeleteResult where
  success : Bool
  outcome : DeleteOutcome
  users : Registry
  savedDoc : Option Registry
  deriving DecidableEq, Repr

/-- The `delete_user` request handler (`app/__init__.py`): session
check, admin-privilege check, reject deleting the session's own user,
reject an unknown username, otherwise delete the entry and rewrite
`users.json` (`saveOk` models whether that write succeeds; on failure
the in-memory deletion is retained but `success` is `false`). -/
def delete_user (sessionUser : Option String) (sessionPrivs : List String) (users : Registry)
    (username : String) (saveOk : Bool) : DeleteResult :=
  match sessionUser with
  | none => ⟨false, DeleteOutcome.notAuthenticated, users, none⟩
  | some current =>
    if !(sessionPrivs.contains "admin") then ⟨false, DeleteOutcome.accessDenied, users, none⟩
    else if username == current then ⟨false, DeleteOutcome.selfDeletion, users, none⟩
    else if !(hasUser users username) then ⟨false, DeleteOutcome.notFound, users, none⟩
    else
      let users2 := eraseUser users username
      if saveOk then ⟨true, DeleteOutcome.deleted, users2, some users2⟩
      else ⟨false, DeleteOutcome.saveFailed, users2, none⟩

/-! Concrete sample data (mirroring the seeded machines/devices and the
seeded credentials) used to instantiate the theorems below. -/

/-- A small concrete database state for witnesses. -/
def dbSample : DBState :=
  ⟨[⟨1, "Machine A", "Production Floor"⟩, ⟨2, "Machine B", "Assembly Line 1"⟩],
   [⟨1, 1, "Emergency Stop Button 1", "E-Stop"⟩, ⟨2, 2, "Safety Mat", "Pressure Mat"⟩],
   [⟨1, 1, 1, "ckull", "pass", 3, ""⟩, ⟨2, 2, 2, "mhiggins", "fail", 5, ""⟩],
   3⟩

/-- A seeded admin user. -/
def userCkull : UserRec := ⟨"Chris", "Kull", "ck@x", "pw1", "admin", ["admin"], "t0"⟩

/-- A seeded plain user. -/
def userMhiggins : UserRec := ⟨"M", "Higgins", "mh@x", "pw2", "user", ["user"], "t0"⟩

/-- A small concrete registry for witnesses. -/
def regSample : Registry := [("ckull", userCkull), ("mhiggins", userMhiggins)]

/-! Shared helper lemmas. -/

/-- Membership in the embedded three-way join. -/
theorem mem_joinRows {now : Nat} {db : DBState} {v : TestView} :
    v ∈ joinRows now db ↔
      ∃ tr ∈ db.test_records, ∃ m ∈ db.machines, ∃ sd ∈ db.safety_devices,
        tr.machine_id = m.machine_id ∧ tr.device_id = sd.device_id ∧
        v = mkView now tr m sd := by
  simp only [joinRows, List.mem_flatMap, List.mem_filter, List.mem_map, beq_iff_eq]
  constructor
  · rintro ⟨tr, htr, m, ⟨hm, hmid⟩, sd, ⟨hsd, hsdid⟩, hv⟩
    exact ⟨tr, htr, m, hm, sd, hsd, hmid, hsdid, hv.symm⟩
  · rintro ⟨tr, htr, m, hm, sd, hsd, hmid, hsdid, hv⟩
    exact ⟨tr, htr, m, ⟨hm, hmid⟩, sd, ⟨hsd, hsdid⟩, hv.symm⟩

/-- With all three filter arguments empty, the dynamically built
`WHERE` clause accepts every row. -/
theorem rowMatches_all_empty (v : TestView) : rowMatches "" "" "" v = true := by
  simp [rowMatches]

/-! The claims. -/

/-- C1: `Authenticate(username, password)` returns `true` iff the
username is present in the loaded registry and the stored password for
that username equals the supplied password verbatim; being a total
function into `Bool`, it returns `false` (never an error) for an
unknown username or a wrong password. -/
theorem authenticate_iff (users : Registry) (u p : String) :
    authenticate users u p = true ↔
      ∃ r : UserRec, lookupUser users u = some r ∧ r.password = p := by
  cases h : lookupUser users u with
  | none => simp [authenticate, h]
  | some r => simp [authenticate, h, beq_iff_eq]

/-- C2 counterexample: a failure to obtain a connection is re-raised by
`get_connection` (the connection is acquired before the operation's
`try` block), so `ListMachines` propagates an error instead of
returning the empty sequence. -/
theorem get_machines_conn_failure_raises :
    get_machines ⟨[], [], [], 1⟩ false true = Except.error () := rfl

/-- C2 (amended): a storage failure inside an operation's own `try`
block yields the empty sequence for `ListMachines`, `ListDevices` and
`QueryTests` and boolean `false` for `RecordTest`, but a failure to
obtain a connection is re-raised by the connection helper and
propagates out of all four operations. -/
theorem storage_failure_policy (db : DBState) (now mid did : Nat)
    (s m u uname res notes : String) :
    get_machines db true false = Except.ok [] ∧
    get_safety_devices db mid true false = Except.ok [] ∧
    get_device_tests now db s m u true false = Except.ok [] ∧
    record_test now db mid did uname res notes true false = Except.ok (false, db) ∧
    get_machines db false true = Except.error () ∧
    get_safety_devices db mid false true = Except.error () ∧
    get_device_tests now db s m u false true = Except.error () ∧
    record_test now db mid did uname res notes false true = Except.error () :=
  ⟨rfl, rfl, rfl, rfl, rfl, rfl, rfl, rfl⟩

/-- C3: on the success path, `QueryTests` returns a row iff it is a row
of the join satisfying all provided filters conjointly — a non-empty
search text must occur as a substring of the device name or of the
machine name (OR), a non-empty machine filter must equal the machine
name exactly, a non-empty user filter must equal the username exactly —
and the returned rows are ordered by test timestamp descending. -/
theorem queryTests_filters_and_order (now : Nat) (db : DBState)
    (search machineF userF : String) (rows : List TestView)
    (h : get_device_tests now db search machineF userF true true = Except.ok rows) :
    (∀ v : TestView, v ∈ rows ↔ v ∈ joinRows now db ∧
        (search = "" ∨ strContains v.device_name search = true ∨
          strContains v.machine_name search = true) ∧
        (machineF = "" ∨ v.machine_name = machineF) ∧
        (userF = "" ∨ v.username = userF)) ∧
    List.Sorted dateDesc rows := by
  have hx : Except.ok (queryRows now db search machineF userF) = Except.ok rows := h
  have hrows := (Except.ok.inj hx).symm
  subst hrows
  refine ⟨?_, List.sorted_insertionSort _ _⟩
  intro v
  rw [queryRows, List.mem_insertionSort, List.mem_filter]
  simp only [rowMatches, Bool.and_eq_true, Bool.or_eq_true, beq_iff_eq]
  tauto

/-- C3 witness: the claim instantiated on a concrete database and a
concrete search text. -/
theorem queryTests_filters_and_order_witness :
    (∀ v : TestView, v ∈ queryRows 10 dbSample "Stop" "" "" ↔ v ∈ joinRows 10 dbSample ∧
        (("Stop" : String) = "" ∨ strContains v.device_name "Stop" = true ∨
          strContains v.machine_name "Stop" = true) ∧
        (("" : String) = "" ∨ v.machine_name = "") ∧
        (("" : String) = "" ∨ v.username = "")) ∧
    List.Sorted dateDesc (queryRows 10 dbSample "Stop" "" "") :=
  queryTests_filters_and_order 10 dbSample "Stop" "" ""
    (queryRows 10 dbSample "Stop" "" "") rfl

/-- C4: on the success path, `ListDevices(machineId)` returns exactly
the projections of the safety devices whose machine id equals the
requested id (membership characterization and multiset equality), and
the returned sequence is sorted by device name ascending. -/
theorem listDevices_exact (db : DBState) (mid : Nat) (rows : List DeviceRow)
    (h : get_safety_devices db mid true true = Except.ok rows) :
    (∀ r : DeviceRow, r ∈ rows ↔
        ∃ d ∈ db.safety_devices, d.machine_id = mid ∧ r = projDevice d) ∧
    rows.Perm ((db.safety_devices.filter (fun d => d.machine_id == mid)).map projDevice) ∧
    List.Sorted deviceNameLe rows := by
  have hx : Except.ok (List.insertionSort deviceNameLe
      ((db.safety_devices.filter (fun d => d.machine_id == mid)).map projDevice)) =
      Except.ok rows := h
  have hrows := (Except.ok.inj hx).symm
  subst hrows
  refine ⟨?_, List.perm_insertionSort _ _, List.sorted_insertionSort _ _⟩
  intro r
  rw [List.mem_insertionSort]
  simp only [List.mem_map, List.mem_filter, beq_iff_eq]
  constructor
  · rintro ⟨d, ⟨hd, hdm⟩, hr⟩
    exact ⟨d, hd, hdm, hr.symm⟩
  · rintro ⟨d, hd, hdm, hr⟩
    exact ⟨d, ⟨hd, hdm⟩, hr.symm⟩

/-- C4 witness: the claim instantiated on a concrete database and
machine id. -/
theorem listDevices_exact_witness :
    (∀ r : DeviceRow, r ∈ List.insertionSort deviceNameLe
        ((dbSample.safety_devices.filter (fun d : SafetyDevice => d.machine_id == 1)).map projDevice) ↔
        ∃ d ∈ dbSample.safety_devices, d.machine_id = 1 ∧ r = projDevice d) ∧
    (List.insertionSort deviceNameLe
        ((dbSample.safety_devices.filter (fun d : SafetyDevice => d.machine_id == 1)).map projDevice)).Perm
      ((dbSample.safety_devices.filter (fun d : SafetyDevice => d.machine_id == 1)).map projDevice) ∧
    List.Sorted deviceNameLe (List.insertionSort deviceNameLe
      ((dbSample.safety_devices.filter (fun d : SafetyDevice => d.machine_id == 1)).map projDevice)) :=
  listDevices_exact dbSample 1
    (List.insertionSort deviceNameLe
      ((dbSample.safety_devices.filter (fun d : SafetyDevice => d.machine_id == 1)).map projDevice)) rfl

/-- C7: re-sorting the `QueryTests` result with key "age" yields a
permutation with `days_since_test` non-increasing; key "machine" a
permutation with machine name non-decreasing; key "device" a
permutation with device name non-decreasing; any other sort key leaves
the sequence exactly as given. -/
theorem history_sort_spec (tests : List TestView) (key : String)
    (h1 : key ≠ "age") (h2 : key ≠ "machine") (h3 : key ≠ "device") :
    (sortTests "age" tests).Perm tests ∧
    List.Sorted ageDesc (sortTests "age" tests) ∧
    (sortTests "machine" tests).Perm tests ∧
    List.Sorted machineAsc (sortTests "machine" tests) ∧
    (sortTests "device" tests).Perm tests ∧
    List.Sorted deviceAsc (sortTests "device" tests) ∧
    sortTests key tests = tests := by
  have e1 : sortTests "age" tests = List.insertionSort ageDesc tests := rfl
  have e2 : sortTests "machine" tests = List.insertionSort machineAsc tests := rfl
  have e3 : sortTests "device" tests = List.insertionSort deviceAsc tests := rfl
  have e4 : sortTests key tests = tests := by
    simp [sortTests, beq_iff_eq, h1, h2, h3]
  rw [e1, e2, e3, e4]
  exact ⟨List.perm_insertionSort _ _, List.sorted_insertionSort _ _,
    List.perm_insertionSort _ _, List.sorted_insertionSort _ _,
    List.perm_insertionSort _ _, List.sorted_insertionSort _ _, rfl⟩

/-- A small concrete test-view list for the C7 witness. -/
def testsSample : List TestView :=
  [⟨1, "Machine B", "Dev 1", "ckull", "pass", 3, 7⟩,
   ⟨2, "Machine A", "Dev 2", "mhiggins", "fail", 5, 5⟩]

/-- C7 witness: the claim instantiated on a concrete list and the
unrecognized sort key "date". -/
theorem history_sort_spec_witness :
    (sortTests "age" testsSample).Perm testsSample ∧
    List.Sorted ageDesc (sortTests "age" testsSample) ∧
    (sortTests "machine" testsSample).Perm testsSample ∧
    List.Sorted machineAsc (sortTests "machine" testsSample) ∧
    (sortTests "device" testsSample).Perm testsSample ∧
    List.Sorted deviceAsc (sortTests "device" testsSample) ∧
    sortTests "date" testsSample = testsSample :=
  history_sort_spec testsSample "date" (by decide) (by decide) (by decide)

/-- A user record stored under a key with surrounding whitespace (such
a state is expressible in the `users.json` document, which the loader
accepts as-is). -/
def userWS : UserRec := ⟨"Bob", "B", "b@x", "pw", "user", ["user"], "t0"⟩

/-- A registry whose single key carries surrounding whitespace. -/
def regWS : Registry := [(" bob", userWS)]

/-- C5 counterexample: the handler strips the submitted username before
its duplicate check, so with the registry containing the key " bob", an
AddUser call submitting the username " bob" — a username already
present — is not rejected as a duplicate and the backing document is
rewritten. -/
theorem add_user_duplicate_cex :
    hasUser regWS " bob" = true ∧
    (add_user (some "root") ["admin"] regWS "x" "y" "e@x" " bob" "pw" "user" "t1"
      true).outcome ≠ AddOutcome.duplicate ∧
    (add_user (some "root") ["admin"] regWS "x" "y" "e@x" " bob" "pw" "user" "t1"
      true).savedDoc ≠ none := by
  refine ⟨rfl, ?_, ?_⟩ <;> decide

/-- C5 (amended): provided the submitted username is unchanged by
whitespace stripping (the handler strips it before the duplicate
check), an AddUser call by an authenticated admin whose username is
already present in the registry returns the duplicate-rejection
outcome, leaves the registry — in particular the existing user's
record — unchanged, and does not rewrite the backing document. -/
theorem add_user_duplicate_rejected (s : String) (privs : List String) (users : Registry)
    (fn ln em un pw role ts : String) (saveOk : Bool)
    (hadmin : privs.contains "admin" = true)
    (hstrip : pyStrip un = un)
    (hdup : hasUser users un = true) :
    add_user (some s) privs users fn ln em un pw role ts saveOk =
      ⟨AddOutcome.duplicate, users, none⟩ := by
  have hadm : "admin" ∈ privs := by simpa using hadmin
  simp [add_user, hadm, hstrip, hdup]

/-- C5 witness: the amended claim instantiated on a concrete registry
and the already-present username "ckull". -/
theorem add_user_duplicate_rejected_witness :
    add_user (some "root") ["admin"] regSample "x" "y" "e@x" "ckull" "pw" "user" "t1" true =
      ⟨AddOutcome.duplicate, regSample, none⟩ :=
  add_user_duplicate_rejected "root" ["admin"] regSample "x" "y" "e@x" "ckull" "pw" "user"
    "t1" true (by decide) (by decide) (by decide)

/-- C6: deleting the current session's username is rejected — the JSON
`success` flag is `false` and the registry is unchanged — regardless of
the caller's privileges, as is deleting a username not present in the
registry; otherwise (admin caller, an existing username other than the
session's own, successful save) the entry is removed from the registry
and the full resulting registry is persisted to the backing document. -/
theorem delete_user_spec (s goodT badT : String) (privs privs2 : List String)
    (users : Registry)
    (hadmin : privs.contains "admin" = true)
    (hmem : hasUser users goodT = true)
    (hne : goodT ≠ s)
    (hbad : hasUser users badT = false) :
    ((delete_user (some s) privs2 users s true).success = false ∧
      (delete_user (some s) privs2 users s true).users = users) ∧
    ((delete_user (some s) privs2 users badT true).success = false ∧
      (delete_user (some s) privs2 users badT true).users = users) ∧
    delete_user (some s) privs users goodT true =
      ⟨true, DeleteOutcome.deleted, eraseUser users goodT, some (eraseUser users goodT)⟩ := by
  have hadm : "admin" ∈ privs := by simpa using hadmin
  refine ⟨?_, ?_, ?_⟩
  · by_cases hp : "admin" ∈ privs2
    · simp [delete_user, hp]
    · simp [delete_user, hp]
  · by_cases hp : "admin" ∈ privs2
    · by_cases hbs : badT = s
      · simp [delete_user, hp, hbs]
      · simp [delete_user, hp, beq_eq_false_iff_ne.mpr hbs, hbad]
    · simp [delete_user, hp]
  · simp [delete_user, hadm, beq_eq_false_iff_ne.mpr hne, hmem]

/-- C6 witness: the claim instantiated on a concrete registry, session
user "root" (carrying no privileges in the first two conjuncts), target
"ckull" and unknown target "ghost". -/
theorem delete_user_spec_witness :
    ((delete_user (some "root") [] regSample "root" true).success = false ∧
      (delete_user (some "root") [] regSample "root" true).users = regSample) ∧
    ((delete_user (some "root") [] regSample "ghost" true).success = false ∧
      (delete_user (some "root") [] regSample "ghost" true).users = regSample) ∧
    delete_user (some "root") ["admin"] regSample "ckull" true =
      ⟨true, DeleteOutcome.deleted, eraseUser regSample "ckull",
        some (eraseUser regSample "ckull")⟩ :=
  delete_user_spec "root" "ckull" "ghost" ["admin"] [] regSample
    (by decide) (by decide) (by decide) (by decide)

/-- C9: every AddUser call that succeeds (authenticated admin session,
username not already present) stores the new user with privilege list
exactly `[role]` when the supplied role is "admin" or "supervisor" and
exactly `["user"]` for any other role string. -/
theorem add_user_privileges (s : String) (privs : List String) (users : Registry)
    (fn ln em un pw role ts : String) (saveOk : Bool)
    (hadmin : privs.contains "admin" = true)
    (hnew : hasUser users (pyStrip un) = false) :
    ∃ u : UserRec,
      (add_user (some s) privs users fn ln em un pw role ts saveOk).users =
        users ++ [(pyStrip un, u)] ∧
      u.privileges = if role = "admin" ∨ role = "supervisor" then [role] else ["user"] := by
  refine ⟨⟨pyCapitalize (pyStrip fn), pyCapitalize (pyStrip ln), pyStrip em, pw, role,
    if role == "admin" || role == "supervisor" then [role] else ["user"], ts⟩, ?_, ?_⟩
  · have hadm : "admin" ∈ privs := by simpa using hadmin
    cases saveOk <;> simp [add_user, hadm, hnew]
  · simp only [Bool.or_eq_true, beq_iff_eq]

/-- C9 witness: the claim instantiated with role "supervisor" on a
concrete registry. -/
theorem add_user_privileges_witness :
    ∃ u : UserRec,
      (add_user (some "root") ["admin"] regSample "ann" "lee" "a@x" "anew" "pw" "supervisor"
        "t1" true).users = regSample ++ [(pyStrip "anew", u)] ∧
      u.privileges = if ("supervisor" : String) = "admin" ∨ ("supervisor" : String) = "supervisor"
        then ["supervisor"] else ["user"] :=
  add_user_privileges "root" ["admin"] regSample "ann" "lee" "a@x" "anew" "pw" "supervisor"
    "t1" true (by decide) (by decide)

/-- C10: every AddUser call that succeeds stores as first and last name
the submitted strings stripped of surrounding whitespace and then
capitalized — first character upper-cased, every subsequent character
lower-cased; in particular the input "McDonald" is stored as
"Mcdonald", not verbatim. -/
theorem add_user_capitalizes (s : String) (privs : List String) (users : Registry)
    (fn ln em un pw role ts : String) (saveOk : Bool)
    (hadmin : privs.contains "admin" = true)
    (hnew : hasUser users (pyStrip un) = false) :
    (∃ u : UserRec,
      (add_user (some s) privs users fn ln em un pw role ts saveOk).users =
        users ++ [(pyStrip un, u)] ∧
      u.first_name = pyCapitalize (pyStrip fn) ∧
      u.last_name = pyCapitalize (pyStrip ln)) ∧
    pyCapitalize (pyStrip "McDonald") = "Mcdonald" ∧
    ("Mcdonald" : String) ≠ "McDonald" := by
  refine ⟨⟨⟨pyCapitalize (pyStrip fn), pyCapitalize (pyStrip ln), pyStrip em, pw, role,
    if role == "admin" || role == "supervisor" then [role] else ["user"], ts⟩,
    ?_, rfl, rfl⟩, by decide, by decide⟩
  have hadm : "admin" ∈ privs := by simpa using hadmin
  cases saveOk <;> simp [add_user, hadm, hnew]

/-- C10 witness: the claim instantiated with first name " McDonald "
(whitespace and mixed case) on a concrete registry. -/
theorem add_user_capitalizes_witness :
    (∃ u : UserRec,
      (add_user (some "root") ["admin"] regSample " McDonald " "lee" "a@x" "anew" "pw" "user"
        "t1" true).users = regSample ++ [(pyStrip "anew", u)] ∧
      u.first_name = pyCapitalize (pyStrip " McDonald ") ∧
      u.last_name = pyCapitalize (pyStrip "lee")) ∧
    pyCapitalize (pyStrip "McDonald") = "Mcdonald" ∧
    ("Mcdonald" : String) ≠ "McDonald" :=
  add_user_capitalizes "root" ["admin"] regSample " McDonald " "lee" "a@x" "anew" "pw" "user"
    "t1" true (by decide) (by decide)

/-- A successful `record_test` on the happy path implies the foreign
keys resolve and describes the resulting state. -/
theorem record_test_success (now : Nat) (db db2 : DBState) (mid did : Nat)
    (uname res notes : String)
    (h : record_test now db mid did uname res notes true true = Except.ok (true, db2)) :
    fkOk db mid did = true ∧
    db2 = { db with
      test_records := db.test_records ++ [newTestRecord now db mid did uname res notes],
      nextRecordId := db.nextRecordId + 1 } := by
  cases hfk : fkOk db mid did with
  | false => simp [record_test, hfk] at h
  | true =>
    simp [record_test, hfk] at h
    exact ⟨rfl, h.symm⟩

/-- C8: a successful `RecordTest` (on the happy path, with the clock
strictly past every existing record's timestamp) followed immediately
by `QueryTests` with all filters empty returns a sequence whose first
element is the newly inserted record: it carries the server-assigned
id, the tester's username, the submitted result and the insertion
timestamp. -/
theorem recordTest_then_query_head (now : Nat) (db db2 : DBState) (mid did : Nat)
    (uname res notes : String)
    (hfresh : ∀ tr ∈ db.test_records, tr.test_date < now)
    (hrec : record_test now db mid did uname res notes true true = Except.ok (true, db2)) :
    ∃ v rest, get_device_tests now db2 "" "" "" true true = Except.ok (v :: rest) ∧
      v.record_id = db.nextRecordId ∧ v.username = uname ∧
      v.test_result = res ∧ v.test_date = now := by
  obtain ⟨hfk, hdb2⟩ := record_test_success now db db2 mid did uname res notes hrec
  rw [fkOk, Bool.and_eq_true] at hfk
  obtain ⟨hkm, hkd⟩ := hfk
  rw [List.any_eq_true] at hkm hkd
  obtain ⟨m, hmMem, hmId⟩ := hkm
  obtain ⟨sd, hsdMem, hsdId⟩ := hkd
  rw [beq_iff_eq] at hmId hsdId
  set newRec := newTestRecord now db mid did uname res notes with hnr
  have hvJoin : mkView now newRec m sd ∈ joinRows now db2 := by
    rw [mem_joinRows]
    refine ⟨newRec, ?_, m, ?_, sd, ?_, ?_, ?_, rfl⟩
    · rw [hdb2]; simp
    · rw [hdb2]; exact hmMem
    · rw [hdb2]; exact hsdMem
    · rw [hnr]; simpa [newTestRecord] using hmId.symm
    · rw [hnr]; simpa [newTestRecord] using hsdId.symm
  have hdates : ∀ v ∈ joinRows now db2, v.test_date ≤ now ∧
      (v.test_date = now → v.record_id = db.nextRecordId ∧ v.username = uname ∧
        v.test_result = res) := by
    intro v hv
    rw [mem_joinRows] at hv
    obtain ⟨tr, htr, m2, hm2, sd2, hsd2, h1, h2, hveq⟩ := hv
    subst hveq
    rw [hdb2] at htr
    simp only [List.mem_append, List.mem_singleton] at htr
    cases htr with
    | inl hold =>
      have hlt := hfresh tr hold
      constructor
      · exact le_of_lt hlt
      · intro hEq
        exact absurd hEq (Nat.ne_of_lt hlt)
    | inr hnew =>
      subst hnew
      refine ⟨?_, fun _ => ⟨?_, ?_, ?_⟩⟩ <;> simp [hnr, newTestRecord, mkView]
  have hfilter : (joinRows now db2).filter (rowMatches "" "" "") = joinRows now db2 :=
    List.filter_eq_self.mpr (fun v _ => rowMatches_all_empty v)
  have hquery : queryRows now db2 "" "" "" = List.insertionSort dateDesc (joinRows now db2) := by
    rw [queryRows, hfilter]
  have hsorted : List.Sorted dateDesc (queryRows now db2 "" "" "") := by
    rw [queryRows]; exact List.sorted_insertionSort _ _
  have hmemQ : mkView now newRec m sd ∈ queryRows now db2 "" "" "" := by
    rw [hquery, List.mem_insertionSort]
    exact hvJoin
  cases hq : queryRows now db2 "" "" "" with
  | nil =>
    rw [hq] at hmemQ
    exact absurd hmemQ (List.not_mem_nil _)
  | cons v rest =>
    have hvJ : v ∈ joinRows now db2 := by
      have hvq : v ∈ queryRows now db2 "" "" "" := by
        rw [hq]; exact List.mem_cons_self v rest
      rw [hquery, List.mem_insertionSort] at hvq
      exact hvq
    have hvLe : v.test_date ≤ now := (hdates v hvJ).1
    have hvGe : now ≤ v.test_date := by
      rw [hq] at hmemQ hsorted
      cases List.mem_cons.mp hmemQ with
      | inl he =>
        rw [← he]
        simp [hnr, newTestRecord, mkView]
      | inr hrest =>
        have hrel := (List.sorted_cons.mp hsorted).1 _ hrest
        simpa [dateDesc, hnr, newTestRecord, mkView] using hrel
    have hvEq : v.test_date = now := le_antisymm hvLe hvGe
    obtain ⟨hid, hun, hres2⟩ := (hdates v hvJ).2 hvEq
    refine ⟨v, rest, ?_, hid, hun, hres2, hvEq⟩
    show Except.ok (queryRows now db2 "" "" "") = Except.ok (v :: rest)
    rw [hq]

/-- Concrete pre-state for the C8 witness: one machine, one safety
device, no test records yet. -/
def dbBefore : DBState :=
  ⟨[⟨1, "Machine A", "Floor"⟩], [⟨1, 1, "E-Stop 1", "E-Stop"⟩], [], 1⟩

/-- Concrete post-state for the C8 witness: the state produced by the
successful `record_test` on `dbBefore`. -/
def dbAfter : DBState :=
  ⟨[⟨1, "Machine A", "Floor"⟩], [⟨1, 1, "E-Stop 1", "E-Stop"⟩],
   [⟨1, 1, 1, "ckull", "pass", 5, ""⟩], 2⟩

/-- C8 witness: the claim instantiated on a concrete one-machine state
with a record inserted at time 5. -/
theorem recordTest_then_query_head_witness :
    ∃ v rest, get_device_tests 5 dbAfter "" "" "" true true = Except.ok (v :: rest) ∧
      v.record_id = dbBefore.nextRecordId ∧ v.username = "ckull" ∧
      v.test_result = "pass" ∧ v.test_date = 5 :=
  recordTest_then_query_head 5 dbBefore dbAfter 1 1 "ckull" "pass" ""
    (by simp [dbBefore]) (by rfl)

end ESTOP
